import Mathlib

/- Verification of the search/aggregation, retry, rate-limit, debounce and
favorites layer of the Luba culture site (scripts/api-module.js,
scripts/data-module.js, scripts/search-module.js).

Timestamps and durations are modelled as Int (the JS numbers used here are
small integers); JSON payloads and HTTP outcomes are modelled by an
environment mapping each attempt or endpoint to an Except value, where an
error stands for a rejected promise or a thrown exception. The
single-threaded JS event loop is made explicit where a claim depends on it:
an async function body runs synchronously up to its first await, and a
sleeping body resumes only when its timer fires. -/

namespace Luba

/- Fetch with retry, api-module.js lines 26 to 44. -/

/-- Outcome of one fetchWithRetry call: the returned JSON (ok some), the
JS undefined fall-through when the loop runs zero times (ok none), or the
error thrown on the last attempt; together with the 0-indexed attempts
actually made and the backoff sleeps in ms awaited between attempts. -/
structure FetchResult (E A : Type) where
  result : Except E (Option A)
  attempts : List Nat
  sleeps : List Nat

/-- Loop of fetchWithRetry: i is the current 0-indexed attempt and the
second argument is retries - i, the number of attempts still allowed.
Attempt i resolves to env i. On success the payload is returned; on failure
the error is rethrown when this was the last allowed attempt (the source
test i === retries - 1), otherwise the loop sleeps 400 * (i + 1) ms and
continues with attempt i + 1. -/
def fetchAux (env : Nat → Except E A) (i : Nat) : Nat → FetchResult E A
  | 0 => ⟨Except.ok none, [], []⟩
  | 1 =>
    match env i with
    | Except.ok a => ⟨Except.ok (some a), [i], []⟩
    | Except.error e => ⟨Except.error e, [i], []⟩
  | n + 2 =>
    match env i with
    | Except.ok a => ⟨Except.ok (some a), [i], []⟩
    | Except.error _ =>
      let rest := fetchAux env (i + 1) (n + 1)
      ⟨rest.result, i :: rest.attempts, 400 * (i + 1) :: rest.sleeps⟩

/-- Model of fetchWithRetry(url, options, retries = 3): the loop above
started at attempt 0, over an attempt environment env. -/
def fetchWithRetry (env : Nat → Except E A) (retries : Nat := 3) : FetchResult E A :=
  fetchAux env 0 retries

theorem fetchAux_attempts_le (env : Nat → Except E A) (i n : Nat) :
    (fetchAux env i n).attempts.length ≤ n := by
  induction n generalizing i with
  | zero => simp [fetchAux]
  | succ m ih =>
    cases m with
    | zero =>
      cases h : env i <;> simp [fetchAux, h]
    | succ k =>
      cases h : env i with
      | ok a => simp [fetchAux, h]
      | error e =>
        have := ih (i + 1)
        simp only [fetchAux, h, List.length_cons]
        omega

theorem fetchAux_all_fail (env : Nat → Except E A) (i n : Nat) (hn : 0 < n)
    (h : ∀ j, j < n → ∃ e, env (i + j) = Except.error e) :
    ∃ e, env (i + (n - 1)) = Except.error e ∧
      (fetchAux env i n).result = Except.error e := by
  induction n generalizing i with
  | zero => exact absurd hn (lt_irrefl 0)
  | succ m ih =>
    cases m with
    | zero =>
      obtain ⟨e, he⟩ := h 0 (by omega)
      have he0 : env i = Except.error e := by simpa using he
      exact ⟨e, by simpa using he, by simp [fetchAux, he0]⟩
    | succ k =>
      obtain ⟨e0, he0⟩ := h 0 (by omega)
      have he0i : env i = Except.error e0 := by simpa using he0
      have h' : ∀ j, j < k + 1 → ∃ e, env (i + 1 + j) = Except.error e := by
        intro j hj
        obtain ⟨e, he⟩ := h (j + 1) (by omega)
        refine ⟨e, ?_⟩
        have harith : i + 1 + j = i + (j + 1) := by omega
        rw [harith]
        exact he
      obtain ⟨e, he, hres⟩ := ih (i + 1) (by omega) h'
      refine ⟨e, ?_, ?_⟩
      · have harith : i + 1 + (k + 1 - 1) = i + (k + 1 + 1 - 1) := by omega
        rw [harith] at he
        exact he
      · simpa [fetchAux, he0i] using hres

/-- Claim C4: when every one of the maxAttempts (default 3) attempts of
fetchWithRetry fails, the call fails with an error carrying the last
underlying cause: the error it fails with is exactly the error of the
final attempt, which the source rethrows when i = retries - 1. -/
theorem fetchWithRetry_exhausted_last_cause (env : Nat → Except E A) (retries : Nat)
    (hpos : 0 < retries) (h : ∀ i, i < retries → ∃ e, env i = Except.error e) :
    ∃ e, env (retries - 1) = Except.error e ∧
      (fetchWithRetry env retries).result = Except.error e := by
  have := fetchAux_all_fail env 0 retries hpos (by simpa using h)
  simpa [fetchWithRetry] using this

/-- Environment in which every attempt fails. -/
def envC4 : Nat → Except String Nat := fun i => Except.error (toString i)

/-- Witness for claim C4 at the default retries = 3 against an environment
whose every attempt fails. -/
theorem fetchWithRetry_exhausted_last_cause_witness :
    ∃ e, envC4 2 = Except.error e ∧
      (fetchWithRetry envC4 3).result = Except.error e :=
  fetchWithRetry_exhausted_last_cause envC4 3 (by decide)
    (fun i _ => ⟨toString i, rfl⟩)

/-- Claim C5: fetchWithRetry makes at most retries (default 3) attempts in
every run; and when attempts 0 and 1 fail while attempt 2 succeeds with
payload a, the default 3-attempt call returns that payload, having made
exactly the attempts 0, 1, 2 and having slept 400 ms after attempt 0 and
800 ms after attempt 1 (linear backoff 400 * (i + 1) after attempt i). -/
theorem fetchWithRetry_two_failures_then_success
    (env : Nat → Except E A) (e0 e1 : E) (a : A)
    (h0 : env 0 = Except.error e0) (h1 : env 1 = Except.error e1)
    (h2 : env 2 = Except.ok a) :
    (∀ (env2 : Nat → Except E A) (r : Nat),
        (fetchWithRetry env2 r).attempts.length ≤ r) ∧
      fetchWithRetry env 3 = ⟨Except.ok (some a), [0, 1, 2], [400, 800]⟩ := by
  refine ⟨fun env2 r => fetchAux_attempts_le env2 0 r, ?_⟩
  simp [fetchWithRetry, fetchAux, h0, h1, h2]

/-- Environment that fails twice and succeeds on the third attempt. -/
def envC5 : Nat → Except String Nat := fun i =>
  if i = 0 then Except.error "boom0"
  else if i = 1 then Except.error "boom1"
  else Except.ok 37

/-- Witness for claim C5 at a concrete fail-fail-succeed environment. -/
theorem fetchWithRetry_two_failures_then_success_witness :
    (∀ (env2 : Nat → Except String Nat) (r : Nat),
        (fetchWithRetry env2 r).attempts.length ≤ r) ∧
      fetchWithRetry envC5 3 = ⟨Except.ok (some 37), [0, 1, 2], [400, 800]⟩ :=
  fetchWithRetry_two_failures_then_success envC5 "boom0" "boom1" 37 rfl rfl rfl

/- MusicBrainz rate limiter, api-module.js lines 22, 23 and 46 to 56, and
its use by the adapters (line 98) and the aggregator music branch
(lines 282 to 296). -/

/-- One invocation of rateLimitMusicBrainz, given the value last of the
module variable lastMusicBrainzRequest read at entry and the entry time
now. elapsed = now - last; when elapsed < 1000 the caller sleeps
1000 - elapsed ms and resumes at now + delay; the timestamp written back
(Date.now() after the optional sleep, with ideal timing) equals the
admission time. -/
structure RateLimitStep where
  delay : Int
  admitTime : Int
  newLast : Int
deriving Repr, DecidableEq

/-- Model of rateLimitMusicBrainz as a function of the stored timestamp
and the entry time, translated from lines 47 to 56. -/
def rateLimitMusicBrainz (last now : Int) : RateLimitStep :=
  let elapsed := now - last
  if elapsed < 1000 then
    let d := 1000 - elapsed
    ⟨d, now + d, now + d⟩
  else
    ⟨0, now, now⟩

/-- Observable events of a MusicBrainz adapter call: a sleep of d ms, a
write of the shared timestamp, and the HTTP fetch to an endpoint. -/
inductive MBEvent : Type
  | sleep (d : Int)
  | writeLast (t : Int)
  | httpFetch (endpoint : String)
deriving Repr, DecidableEq

/-- Event trace of one rateLimitMusicBrainz invocation: the optional sleep,
then the timestamp write at the moment permission is granted. -/
def rateLimitTrace (last now : Int) : List MBEvent :=
  (if now - last < 1000 then [MBEvent.sleep (1000 - (now - last))] else [])
    ++ [MBEvent.writeLast (rateLimitMusicBrainz last now).newLast]

/-- Event trace of searchMusicBrainzArtists (lines 97 to 121): it awaits
the rate limiter first and only then issues its HTTP request. -/
def searchMusicBrainzArtistsTrace (last now : Int) : List MBEvent :=
  rateLimitTrace last now ++ [MBEvent.httpFetch "artist"]

/-- Claim C6: a rate limiter invocation whose elapsed time since the last
recorded call is below 1000 ms suspends the caller for exactly
1000 - elapsed ms, otherwise it adds no delay and is admitted at once; in
both cases the timestamp written back equals the admission time, and in
the adapter trace that write precedes the HTTP fetch. -/
theorem rateLimit_delay_and_admission (last now : Int) :
    (rateLimitMusicBrainz last now).delay
        = (if now - last < 1000 then 1000 - (now - last) else 0) ∧
      (rateLimitMusicBrainz last now).admitTime
        = now + (rateLimitMusicBrainz last now).delay ∧
      (rateLimitMusicBrainz last now).newLast
        = (rateLimitMusicBrainz last now).admitTime ∧
      searchMusicBrainzArtistsTrace last now
        = (if now - last < 1000 then [MBEvent.sleep (1000 - (now - last))] else [])
            ++ [MBEvent.writeLast (rateLimitMusicBrainz last now).admitTime,
                MBEvent.httpFetch "artist"] := by
  unfold searchMusicBrainzArtistsTrace rateLimitTrace
  by_cases h : now - last < 1000 <;> simp [rateLimitMusicBrainz, h]

/-- Admission times of n rateLimitMusicBrainz invocations whose bodies all
run back to back at the same time T, as happens when the aggregator music
branch hands three adapter calls to one Promise.all: each body reads the
shared timestamp synchronously; a body taking the no-wait branch writes T
back before the next body runs, while a body taking the wait branch
schedules its resumption at lastRead + 1000 and performs its write only
when that timer fires, after every body has already read. -/
def concurrentAdmissions (last T : Int) : Nat → List Int
  | 0 => []
  | n + 1 =>
    if T - last < 1000 then
      (last + 1000) :: concurrentAdmissions last T n
    else
      T :: concurrentAdmissions T T n

/-- Counterexample to claim C3: three MusicBrainz calls issued concurrently
at time 5000 with the limiter idle since time 0 are admitted at times 5000,
6000 and 6000: the second and third admissions coincide, so admissions are
neither strictly totally ordered nor spaced by at least 1000 ms. -/
theorem rateLimit_concurrent_not_serialized :
    concurrentAdmissions 0 5000 3 = [5000, 6000, 6000] ∧
      ¬ List.Chain' (fun a b => a + 1000 ≤ b) (concurrentAdmissions 0 5000 3) ∧
      ¬ List.Pairwise (fun a b => a ≠ b) (concurrentAdmissions 0 5000 3) := by
  have hlist : concurrentAdmissions 0 5000 3 = [5000, 6000, 6000] := by decide
  refine ⟨hlist, ?_, ?_⟩
  · rw [hlist]
    intro h
    have h2 := (List.chain'_cons.mp (List.chain'_cons.mp h).2).1
    omega
  · rw [hlist]
    intro h
    have h2 := (List.pairwise_cons.mp (List.pairwise_cons.mp h).2).1 6000 (by simp)
    exact h2 rfl

/-- Admission times of a sequence of rateLimitMusicBrainz invocations
issued sequentially: each call starts only after the previous one was
admitted, so it reads the timestamp its predecessor wrote. -/
def seqAdmissions (last : Int) : List Int → List Int
  | [] => []
  | t :: ts =>
    let s := rateLimitMusicBrainz last t
    s.admitTime :: seqAdmissions s.newLast ts

theorem rateLimit_admit_ge (last t : Int) :
    last + 1000 ≤ (rateLimitMusicBrainz last t).admitTime := by
  unfold rateLimitMusicBrainz
  by_cases h : t - last < 1000 <;> simp [h] <;> omega

theorem rateLimit_newLast_eq (last t : Int) :
    (rateLimitMusicBrainz last t).newLast = (rateLimitMusicBrainz last t).admitTime := by
  unfold rateLimitMusicBrainz
  by_cases h : t - last < 1000 <;> simp [h]

/-- Claim C3 amended: when MusicBrainz calls go through the limiter
sequentially, each issued after the previous admission so that it reads the
timestamp written by its predecessor, consecutive admissions are at least
1000 ms apart (and the first comes at least 1000 ms after the initially
stored timestamp); the guarantee fails only for concurrently issued calls,
which read the same stale timestamp and may be admitted simultaneously. -/
theorem rateLimit_sequential_spacing (last : Int) (times : List Int) :
    List.Chain (fun a b => a + 1000 ≤ b) last (seqAdmissions last times) := by
  induction times generalizing last with
  | nil => exact List.Chain.nil
  | cons t ts ih =>
    refine List.Chain.cons (rateLimit_admit_ge last t) ?_
    rw [← rateLimit_newLast_eq last t]
    exact ih (rateLimitMusicBrainz last t).newLast

/- Aggregator searchAllSources, api-module.js lines 254 to 299, with the
adapters it calls: searchMetArtifacts (59 to 67), getMetObjects (73 to 82),
searchClevelandArtifacts (85 to 94) and the three MusicBrainz searches. -/

/-- A record returned by the Cleveland search or a MusicBrainz search,
reduced to an id and a title. -/
structure Item where
  id : Nat
  title : String
deriving Repr, DecidableEq

/-- A Met object detail record: its id and its primaryImage field, where
the empty string models a missing or falsy primaryImage. -/
structure MetObject where
  id : Nat
  primaryImage : String
deriving Repr, DecidableEq

/-- An element of the aggregated artifacts array. The JS array holds raw
heterogeneous records; the tag records which source shape a record has. -/
inductive Artifact : Type
  | cleveland (item : Item)
  | met (obj : MetObject)
deriving Repr, DecidableEq

/-- The record literal built at lines 261 to 266 and returned at line 298:
exactly the four keys artifacts, recordings, artists, instruments, each an
array. -/
structure AggregatedResults where
  artifacts : List Artifact
  recordings : List Item
  artists : List Item
  instruments : List Item
deriving Repr, DecidableEq

/-- Environment of one searchAllSources call: the settled outcome of each
underlying HTTP search (after its own fetchWithRetry retries), and the
settled outcome of each per-id Met object detail fetch. An error is a
rejected promise. -/
structure SearchEnv where
  metSearch : Except String (List Nat)
  metObject : Nat → Except String MetObject
  clevelandSearch : Except String (List Item)
  mbArtists : Except String (List Item)
  mbRecordings : Except String (List Item)
  mbInstruments : Except String (List Item)

/-- getMetObjects (lines 73 to 82): fetch every listed id, keep the
fulfilled results via Promise.allSettled, and keep only objects with a
truthy primaryImage. Individual failures are dropped, never rethrown. -/
def getMetObjects (env : SearchEnv) (objectIds : List Nat) : List MetObject :=
  (objectIds.map env.metObject).filterMap fun r =>
    match r with
    | Except.ok obj => if obj.primaryImage ≠ "" then some obj else none
    | Except.error _ => none

/-- The art branch body (lines 270 to 276): Promise.all joins the Met id
search and the Cleveland search, so the branch fails as soon as either
fails; on success only the first 10 Met ids get their details fetched, and
the Cleveland records are concatenated before the Met objects. Returns the
concatenation together with the list of Met ids whose details were
fetched. -/
def artBranch (env : SearchEnv) : Except String (List Artifact × List Nat) := do
  let metIds ← env.metSearch
  let clevelandData ← env.clevelandSearch
  let fetchIds := metIds.take 10
  let metObjects := getMetObjects env fetchIds
  pure (clevelandData.map Artifact.cleveland ++ metObjects.map Artifact.met, fetchIds)

/-- The music branch body (lines 284 to 292): Promise.all joins the three
MusicBrainz searches, so the branch fails as soon as any of them fails.
Returns (artists, recordings, instruments). -/
def musicBranch (env : SearchEnv) : Except String (List Item × List Item × List Item) := do
  let artistsData ← env.mbArtists
  let recordingsData ← env.mbRecordings
  let instrumentsData ← env.mbInstruments
  pure (artistsData, recordingsData, instrumentsData)

/-- Options argument of searchAllSources with its defaults (lines 255 to
259). -/
structure SearchOptions where
  includeArt : Bool := true
  includeMusic : Bool := true
  maxResults : Nat := 50
deriving Repr, DecidableEq

/-- searchAllSources (lines 254 to 299): each enabled branch runs inside
try/catch, a caught failure is only logged and leaves that branch's keys
as the empty arrays initialized at lines 261 to 266; the art results are
truncated to maxResults. The function is total: it always returns the
four-key record. The second component is the log of Met ids whose details
were fetched. -/
def searchAllSources (env : SearchEnv) (opts : SearchOptions) :
    AggregatedResults × List Nat :=
  let art :=
    if opts.includeArt then
      match artBranch env with
      | Except.ok (arts, ids) => (arts.take opts.maxResults, ids)
      | Except.error _ => ([], [])
    else ([], [])
  let music :=
    if opts.includeMusic then
      match musicBranch env with
      | Except.ok (a, r, i) => (a, r, i)
      | Except.error _ => ([], [], [])
    else ([], [], [])
  (⟨art.1, music.2.1, music.1, music.2.2⟩, art.2)

/-- Claim C8: searchAllSources is a total function into the four-key
record type, so no combination of branch outcomes raises an error to the
caller, and a branch whose joined calls failed contributes empty sequences
for all of its categories. -/
theorem searchAllSources_total_and_isolating (env : SearchEnv) (opts : SearchOptions) :
    (∀ e, artBranch env = Except.error e →
        (searchAllSources env opts).1.artifacts = []) ∧
      (∀ e, musicBranch env = Except.error e →
        (searchAllSources env opts).1.recordings = [] ∧
          (searchAllSources env opts).1.artists = [] ∧
          (searchAllSources env opts).1.instruments = []) ∧
      (searchAllSources env opts).1 =
        ⟨(searchAllSources env opts).1.artifacts,
          (searchAllSources env opts).1.recordings,
          (searchAllSources env opts).1.artists,
          (searchAllSources env opts).1.instruments⟩ := by
  refine ⟨?_, ?_, rfl⟩
  · intro e he
    unfold searchAllSources
    cases h : opts.includeArt <;> simp [h, he]
  · intro e he
    unfold searchAllSources
    cases h : opts.includeMusic <;> simp [h, he]

/-- Environment in which every underlying search fails. -/
def envC8 : SearchEnv :=
  ⟨Except.error "met down", fun _ => Except.error "met down",
    Except.error "cleveland down", Except.error "mb down",
    Except.error "mb down", Except.error "mb down"⟩

/-- Witness for claim C8: with every source failing, both branch bodies
fail, and the call still returns the record with all four sequences
empty. -/
theorem searchAllSources_total_and_isolating_witness :
    (searchAllSources envC8 {}).1.artifacts = [] ∧
      (searchAllSources envC8 {}).1.recordings = [] ∧
      (searchAllSources envC8 {}).1.artists = [] ∧
      (searchAllSources envC8 {}).1.instruments = [] := by
  have h := searchAllSources_total_and_isolating envC8 {}
  exact ⟨h.1 "met down" rfl, h.2.1 "mb down" rfl⟩

/-- Claim C7: in an art-only search with maxResults 5 where Cleveland
returns 3 items and the Met id search returns 10 ids, the artifacts
sequence has length at most 5 and equals the Cleveland items followed by
the kept Met objects truncated to 5 (so every Cleveland item precedes
every Met item), details were fetched exactly for the first 10 Met ids,
which is all of them, and recordings, artists and instruments are all
empty. -/
theorem searchAllSources_art_only_scenario
    (env : SearchEnv) (c1 c2 c3 : Item) (ids : List Nat)
    (hc : env.clevelandSearch = Except.ok [c1, c2, c3])
    (hm : env.metSearch = Except.ok ids)
    (hlen : ids.length = 10) :
    (searchAllSources env ⟨true, false, 5⟩).1.artifacts.length ≤ 5 ∧
      (searchAllSources env ⟨true, false, 5⟩).1.artifacts =
        ([Artifact.cleveland c1, Artifact.cleveland c2, Artifact.cleveland c3]
            ++ (getMetObjects env (ids.take 10)).map Artifact.met).take 5 ∧
      (searchAllSources env ⟨true, false, 5⟩).2 = ids.take 10 ∧
      ids.take 10 = ids ∧
      (searchAllSources env ⟨true, false, 5⟩).1.recordings = [] ∧
      (searchAllSources env ⟨true, false, 5⟩).1.artists = [] ∧
      (searchAllSources env ⟨true, false, 5⟩).1.instruments = [] := by
  have hart : artBranch env = Except.ok
      ([Artifact.cleveland c1, Artifact.cleveland c2, Artifact.cleveland c3]
          ++ (getMetObjects env (ids.take 10)).map Artifact.met, ids.take 10) := by
    unfold artBranch
    rw [hm, hc]
    rfl
  have hmain : searchAllSources env ⟨true, false, 5⟩ =
      (⟨([Artifact.cleveland c1, Artifact.cleveland c2, Artifact.cleveland c3]
            ++ (getMetObjects env (ids.take 10)).map Artifact.met).take 5,
          [], [], []⟩, ids.take 10) := by
    unfold searchAllSources
    rw [hart]
    rfl
  refine ⟨?_, ?_, ?_, ?_, ?_, ?_, ?_⟩
  · rw [hmain]
    exact List.length_take_le 5 _
  · rw [hmain]
  · rw [hmain]
  · exact List.take_of_length_le (by omega)
  · rw [hmain]
  · rw [hmain]
  · rw [hmain]

/-- Environment for the claim C7 witness: Cleveland returns 3 items, the
Met id search returns 10 ids, every Met detail fetch succeeds with an
image. -/
def envC7 : SearchEnv :=
  ⟨Except.ok [1, 2, 3, 4, 5, 6, 7, 8, 9, 10],
    fun i => Except.ok ⟨i, "img"⟩,
    Except.ok [⟨101, "bowl"⟩, ⟨102, "stool"⟩, ⟨103, "staff"⟩],
    Except.ok [], Except.ok [], Except.ok []⟩

/-- Witness for claim C7 at the concrete environment envC7. -/
theorem searchAllSources_art_only_scenario_witness :
    (searchAllSources envC7 ⟨true, false, 5⟩).1.artifacts.length ≤ 5 ∧
      (searchAllSources envC7 ⟨true, false, 5⟩).1.artifacts =
        ([Artifact.cleveland ⟨101, "bowl"⟩, Artifact.cleveland ⟨102, "stool"⟩,
            Artifact.cleveland ⟨103, "staff"⟩]
            ++ (getMetObjects envC7 ([1, 2, 3, 4, 5, 6, 7, 8, 9, 10].take 10)).map
                Artifact.met).take 5 ∧
      (searchAllSources envC7 ⟨true, false, 5⟩).2 =
        [1, 2, 3, 4, 5, 6, 7, 8, 9, 10].take 10 ∧
      ([1, 2, 3, 4, 5, 6, 7, 8, 9, 10] : List Nat).take 10 =
        [1, 2, 3, 4, 5, 6, 7, 8, 9, 10] ∧
      (searchAllSources envC7 ⟨true, false, 5⟩).1.recordings = [] ∧
      (searchAllSources envC7 ⟨true, false, 5⟩).1.artists = [] ∧
      (searchAllSources envC7 ⟨true, false, 5⟩).1.instruments = [] :=
  searchAllSources_art_only_scenario envC7 ⟨101, "bowl"⟩ ⟨102, "stool"⟩ ⟨103, "staff"⟩
    [1, 2, 3, 4, 5, 6, 7, 8, 9, 10] rfl rfl rfl

/-- Environment for the claim C1 counterexample: the Met id search rejects
after its retries while the Cleveland search fulfills with 2 items; the
music sources return empty result sets. -/
def envC1 : SearchEnv :=
  ⟨Except.error "network down", fun i => Except.ok ⟨i, "img"⟩,
    Except.ok [⟨1, "maskA"⟩, ⟨2, "maskB"⟩],
    Except.ok [], Except.ok [], Except.ok []⟩

/-- Counterexample to claim C1: with the Met search failing and Cleveland
succeeding with 2 items, searchAllSources still returns a record (no
exception), but its artifacts sequence is empty and in particular does not
contain the 2 Cleveland items: Promise.all inside the art branch rejects
as soon as the Met search rejects, discarding the Cleveland results. -/
theorem searchAllSources_met_failure_loses_cleveland_cex :
    searchAllSources envC1 {} = (⟨[], [], [], []⟩, []) ∧
      ¬ Artifact.cleveland ⟨1, "maskA"⟩ ∈ (searchAllSources envC1 {}).1.artifacts ∧
      ¬ Artifact.cleveland ⟨2, "maskB"⟩ ∈ (searchAllSources envC1 {}).1.artifacts := by
  refine ⟨rfl, by decide, by decide⟩

/-- Claim C1 amended: when during one searchAllSources call with
includeArt true the Met id search fails but the Cleveland search succeeds,
no exception is raised to the caller (the function is total and returns
the four-key record), but the artifacts sequence is empty: the failed Met
promise rejects the art branch's Promise.all, so the Cleveland items are
discarded together with the branch. -/
theorem searchAllSources_met_failure_empties_artifacts
    (env : SearchEnv) (opts : SearchOptions) (e : String) (items : List Item)
    (hm : env.metSearch = Except.error e)
    (_hc : env.clevelandSearch = Except.ok items) :
    (searchAllSources env opts).1.artifacts = [] := by
  have hart : artBranch env = Except.error e := by
    unfold artBranch
    rw [hm]
    rfl
  unfold searchAllSources
  cases h : opts.includeArt <;> simp [h, hart]

/-- Witness for the amended claim C1 at the concrete environment envC1. -/
theorem searchAllSources_met_failure_empties_artifacts_witness :
    (searchAllSources envC1 {}).1.artifacts = [] :=
  searchAllSources_met_failure_empties_artifacts envC1 {} "network down"
    [⟨1, "maskA"⟩, ⟨2, "maskB"⟩] rfl rfl

/- Debounced search controller performSearch, search-module.js lines 419
to 499. The module state is the variable currentSearchQuery (line 422) and
the variable searchResults (lines 423 to 427); rendering through
displaySearchResults (line 487) is modelled as the displayed field. -/

/-- Module-level state of the search controller: the current query marker,
the stored results variable, and the last rendered (query, results)
pair. -/
structure SearchState where
  currentSearchQuery : String
  searchResults : AggregatedResults
  displayed : Option (String × AggregatedResults)
deriving Repr, DecidableEq

/-- Events of the controller: the timer for a query fires and performSearch
passes the minimum-length check (line 457 runs), or the awaited
searchAllSources call for a query resolves with its results (lines 476
onward run). -/
inductive SearchEvent : Type
  | start (query : String)
  | complete (query : String) (results : AggregatedResults)
deriving Repr, DecidableEq

/-- One controller step. On start, line 457 records the query as current.
On completion, line 479 stores the results into searchResults, then lines
482 to 484 return early without rendering when the completed query is no
longer the current one; otherwise line 487 renders. -/
def stepSearch (s : SearchState) : SearchEvent → SearchState
  | SearchEvent.start q => { s with currentSearchQuery := q }
  | SearchEvent.complete q r =>
    let s1 := { s with searchResults := r }
    if s1.currentSearchQuery ≠ q then s1
    else { s1 with displayed := some (q, r) }

/-- Module state at load: empty query, empty result arrays, nothing
rendered. -/
def initialSearchState : SearchState :=
  ⟨"", ⟨[], [], [], []⟩, none⟩

/-- Run of the controller over a list of events. -/
def runSearch (evs : List SearchEvent) : SearchState :=
  evs.foldl stepSearch initialSearchState

/-- Results carried by the stale search A in the claim C2 run. -/
def resultsA : AggregatedResults :=
  ⟨[Artifact.cleveland ⟨1, "maskA"⟩], [], [], []⟩

/-- Results carried by the newer search B in the claim C2 run. -/
def resultsB : AggregatedResults :=
  ⟨[], [⟨7, "song"⟩], [], []⟩

/-- Event run for the claim C2 counterexample: query A is issued before
query B, B completes first, and the stale completion of A arrives last. -/
def evsC2 : List SearchEvent :=
  [SearchEvent.start "A", SearchEvent.start "B",
    SearchEvent.complete "B" resultsB, SearchEvent.complete "A" resultsA]

/-- Counterexample to claim C2: after the run in which B is the most
recently issued query and B's result was applied, the stale completion of
A still overwrites the stored searchResults variable with A's result,
because line 479 assigns searchResults before the staleness check at line
482; so the stored value is not only ever replaced by the result matching
the most recent query. -/
theorem performSearch_stale_overwrites_stored_cex :
    (runSearch evsC2).currentSearchQuery = "B" ∧
      (runSearch evsC2).searchResults = resultsA ∧
      resultsA ≠ resultsB := by
  refine ⟨rfl, rfl, by decide⟩

/-- Claim C2 amended: the staleness guard protects only the rendering: a
completion whose query no longer equals the current query leaves the
display unchanged, and a completion whose query is still current renders
its results; but every completion, stale or not, overwrites the stored
searchResults variable with its own results. -/
theorem performSearch_staleness_guard_display
    (s : SearchState) (q : String) (r : AggregatedResults) :
    (stepSearch s (SearchEvent.complete q r)).searchResults = r ∧
      (q ≠ s.currentSearchQuery →
        (stepSearch s (SearchEvent.complete q r)).displayed = s.displayed) ∧
      (q = s.currentSearchQuery →
        (stepSearch s (SearchEvent.complete q r)).displayed = some (q, r)) := by
  refine ⟨?_, ?_, ?_⟩
  · by_cases h : s.currentSearchQuery ≠ q <;> simp [stepSearch, h]
  · intro hne
    have h : s.currentSearchQuery ≠ q := fun hh => hne hh.symm
    simp [stepSearch, h]
  · intro heq
    have h : ¬ s.currentSearchQuery ≠ q := by simp [heq]
    simp [stepSearch, heq, h]

/-- Witness for the amended claim C2: in a state whose current query is B,
a stale completion for A overwrites the stored results but leaves the
display unchanged, while a completion for B renders. -/
theorem performSearch_staleness_guard_display_witness :
    (stepSearch ⟨"B", ⟨[], [], [], []⟩, none⟩
        (SearchEvent.complete "A" resultsA)).searchResults = resultsA ∧
      (stepSearch ⟨"B", ⟨[], [], [], []⟩, none⟩
          (SearchEvent.complete "A" resultsA)).displayed = none ∧
      (stepSearch ⟨"B", ⟨[], [], [], []⟩, none⟩
          (SearchEvent.complete "B" resultsB)).displayed = some ("B", resultsB) :=
  ⟨(performSearch_staleness_guard_display ⟨"B", ⟨[], [], [], []⟩, none⟩ "A" resultsA).1,
    (performSearch_staleness_guard_display ⟨"B", ⟨[], [], [], []⟩, none⟩ "A" resultsA).2.1
      (by decide),
    (performSearch_staleness_guard_display ⟨"B", ⟨[], [], [], []⟩, none⟩ "B" resultsB).2.2
      rfl⟩

/- Debounce combinator, search-module.js lines 419 to 435. debounceTimer
at line 421 is a module-level variable, so every function the combinator
returns reads and clears the same timer slot. -/

/-- Event-loop state seen by debounce: the timer id counter, the scheduled
timers (id, tag) where the tag names which debounced function and
arguments the timer would invoke, and the shared module variable
debounceTimer (null before the first invocation). -/
structure DebounceState where
  nextId : Nat
  pending : List (Nat × String)
  debounceTimer : Option Nat
deriving Repr, DecidableEq

/-- clearTimeout(t): removing a timer id that is null or no longer
scheduled is a no-op; a scheduled id is cancelled. -/
def clearTimeout (s : DebounceState) : Option Nat → DebounceState
  | none => s
  | some id => { s with pending := s.pending.filter (fun p => p.1 != id) }

/-- Body of any function returned by debounce (lines 431 to 434):
clearTimeout(debounceTimer) then debounceTimer = setTimeout(...), which
schedules a fresh timer and stores its id in the shared variable. -/
def invokeDebounced (tag : String) (s : DebounceState) : DebounceState :=
  let s1 := clearTimeout s s.debounceTimer
  { nextId := s1.nextId + 1,
    pending := s1.pending ++ [(s1.nextId, tag)],
    debounceTimer := some s1.nextId }

/-- Events: some debounced function is invoked, or a scheduled timer
fires (its callback runs and the timer leaves the schedule). -/
inductive DebEvent : Type
  | invoke (tag : String)
  | fire (id : Nat)
deriving Repr, DecidableEq

/-- One event-loop step for the debounce module. -/
def stepDebounce (s : DebounceState) : DebEvent → DebounceState
  | DebEvent.invoke tag => invokeDebounced tag s
  | DebEvent.fire id => { s with pending := s.pending.filter (fun p => p.1 != id) }

/-- Module state at load: no timer scheduled, debounceTimer null. -/
def initialDebounceState : DebounceState := ⟨0, [], none⟩

/-- Run of the debounce module over a list of events. -/
def runDebounce (evs : List DebEvent) : DebounceState :=
  evs.foldl stepDebounce initialDebounceState

/-- Invariant of the debounce module: at most one timer is scheduled, and
any scheduled timer is the one whose id the shared debounceTimer variable
holds, with an id below the counter. -/
def DebInv (s : DebounceState) : Prop :=
  s.pending.length ≤ 1 ∧
    ∀ p ∈ s.pending, s.debounceTimer = some p.1 ∧ p.1 < s.nextId

theorem clearTimeout_nextId (s : DebounceState) (t : Option Nat) :
    (clearTimeout s t).nextId = s.nextId := by
  cases t <;> rfl

theorem clearTimeout_own_pending (s : DebounceState) (h : DebInv s) :
    (clearTimeout s s.debounceTimer).pending = [] := by
  cases ht : s.debounceTimer with
  | none =>
    cases hp : s.pending with
    | nil => simp [clearTimeout, hp]
    | cons a l =>
      have := (h.2 a (by simp [hp])).1
      rw [ht] at this
      exact absurd this (by simp)
  | some id =>
    simp only [clearTimeout]
    rw [List.filter_eq_nil_iff]
    intro p hp
    have := (h.2 p hp).1
    rw [ht] at this
    have hid : p.1 = id := by injection this.symm
    simp [hid]

theorem debInv_initial : DebInv initialDebounceState := by
  constructor
  · simp [initialDebounceState]
  · intro p hp
    simp [initialDebounceState] at hp

theorem debInv_step (s : DebounceState) (h : DebInv s) (e : DebEvent) :
    DebInv (stepDebounce s e) := by
  cases e with
  | invoke tag =>
    have hc := clearTimeout_own_pending s h
    have hn := clearTimeout_nextId s s.debounceTimer
    constructor
    · simp [stepDebounce, invokeDebounced, hc]
    · intro p hp
      simp [stepDebounce, invokeDebounced, hc] at hp
      simp [stepDebounce, invokeDebounced, hc, hp]
  | fire id =>
    constructor
    · exact le_trans (List.length_filter_le _ _) h.1
    · intro p hp
      have hmem : p ∈ s.pending := List.mem_of_mem_filter hp
      exact h.2 p hmem

theorem debInv_run_aux (evs : List DebEvent) (s : DebounceState) (h : DebInv s) :
    DebInv (evs.foldl stepDebounce s) := by
  induction evs generalizing s with
  | nil => exact h
  | cons e rest ih => exact ih (stepDebounce s e) (debInv_step s h e)

theorem debInv_run (evs : List DebEvent) : DebInv (runDebounce evs) :=
  debInv_run_aux evs initialDebounceState debInv_initial

/-- Claim C9: debounce keeps its pending timer in the single module-level
variable debounceTimer shared by every function it returns, so after any
event sequence at most one debounced invocation is pending process-wide,
this still holds after invoking any debounced function g, and invoking g
cancels whatever invocation of any debounced function f was pending. -/
theorem debounce_shared_timer_single_pending (evs : List DebEvent) (g : String) :
    (runDebounce evs).pending.length ≤ 1 ∧
      (stepDebounce (runDebounce evs) (DebEvent.invoke g)).pending.length ≤ 1 ∧
      ∀ p ∈ (runDebounce evs).pending,
        ¬ p ∈ (stepDebounce (runDebounce evs) (DebEvent.invoke g)).pending := by
  have h := debInv_run evs
  refine ⟨h.1, (debInv_step _ h (DebEvent.invoke g)).1, ?_⟩
  intro p hp
  have hc := clearTimeout_own_pending (runDebounce evs) h
  have hn := clearTimeout_nextId (runDebounce evs) (runDebounce evs).debounceTimer
  have hlt : p.1 < (runDebounce evs).nextId := (h.2 p hp).2
  simp [stepDebounce, invokeDebounced, hc, hn]
  intro habs
  rw [habs] at hlt
  exact absurd hlt (by simp)

/-- Witness for claim C9: after an invocation of the debounced function f,
invoking the distinct debounced function g cancels the pending invocation
of f, and at most one invocation is pending before and after. -/
theorem debounce_shared_timer_single_pending_witness :
    (runDebounce [DebEvent.invoke "f"]).pending.length ≤ 1 ∧
      (stepDebounce (runDebounce [DebEvent.invoke "f"])
          (DebEvent.invoke "g")).pending.length ≤ 1 ∧
      ¬ (0, "f") ∈ (stepDebounce (runDebounce [DebEvent.invoke "f"])
          (DebEvent.invoke "g")).pending :=
  ⟨(debounce_shared_timer_single_pending [DebEvent.invoke "f"] "g").1,
    (debounce_shared_timer_single_pending [DebEvent.invoke "f"] "g").2.1,
    (debounce_shared_timer_single_pending [DebEvent.invoke "f"] "g").2.2 (0, "f")
      (by decide)⟩

/- Favorites, data-module.js lines 355 to 385. The stored favorites object
is modelled as an association list from type key to the array under that
key; a missing key behaves as the empty array, matching the guard at lines
368 to 370. addFavorite reads the stored object through getFavorites,
mutates it and saves it back, so it is a function from the stored value to
the returned flag and the new stored value. -/

/-- An item passed to addFavorite: its id and its optional name and title
fields (the entry name falls back name, then title, then Untitled, lines
375 to 379). -/
structure FavItem where
  id : Nat
  name : Option String
  title : Option String
deriving Repr, DecidableEq

/-- An entry stored in a favorites array. -/
structure FavEntry where
  id : Nat
  name : String
  dateAdded : Nat
deriving Repr, DecidableEq

/-- The stored favorites object: type key to array of entries. -/
def Favorites : Type := List (String × List FavEntry)

/-- Read favorites of one type; a missing key yields the empty array. -/
def lookupFav (favs : Favorites) (type : String) : List FavEntry :=
  match favs.find? (fun p => p.1 == type) with
  | some p => p.2
  | none => []

/-- Write the array of one type back into the favorites object. -/
def setFav : Favorites → String → List FavEntry → Favorites
  | [], type, l => [(type, l)]
  | (k, v) :: rest, type, l =>
    if k == type then (type, l) :: rest else (k, v) :: setFav rest type l

/-- The entry pushed at lines 375 to 380: the item id, the name fallback
chain, and the dateAdded timestamp. -/
def mkFavEntry (item : FavItem) (now : Nat) : FavEntry :=
  ⟨item.id, item.name.getD (item.title.getD "Untitled"), now⟩

/-- addFavorite (lines 365 to 385): when some stored entry of the type
already has the item id, return false without saving; otherwise push the
new entry onto the array of that type, save, and return true. -/
def addFavorite (type : String) (item : FavItem) (now : Nat) (favs : Favorites) :
    Bool × Favorites :=
  let lst := lookupFav favs type
  if lst.any (fun fav => fav.id == item.id) then (false, favs)
  else (true, setFav favs type (lst ++ [mkFavEntry item now]))

theorem lookupFav_setFav (favs : Favorites) (type : String) (l : List FavEntry) :
    lookupFav (setFav favs type l) type = l := by
  induction favs with
  | nil => simp [setFav, lookupFav, List.find?]
  | cons head rest ih =>
    obtain ⟨k, v⟩ := head
    cases h : k == type with
    | true => simp [setFav, lookupFav, List.find?, h]
    | false =>
      simpa [setFav, lookupFav, List.find?, h] using ih

/-- Claim C10: addFavorite is idempotent per item id: a first call with an
id not yet stored under the type appends exactly one entry and returns
true, and any subsequent call with an item of the same id returns false
and leaves the stored favorites object unchanged. -/
theorem addFavorite_idempotent_per_id
    (type : String) (item : FavItem) (now : Nat) (favs : Favorites)
    (hnew : ∀ fav ∈ lookupFav favs type, fav.id ≠ item.id) :
    addFavorite type item now favs =
        (true, setFav favs type (lookupFav favs type ++ [mkFavEntry item now])) ∧
      lookupFav (addFavorite type item now favs).2 type
        = lookupFav favs type ++ [mkFavEntry item now] ∧
      ∀ (item2 : FavItem) (now2 : Nat), item2.id = item.id →
        addFavorite type item2 now2 (addFavorite type item now favs).2
          = (false, (addFavorite type item now favs).2) := by
  have hany : (lookupFav favs type).any (fun fav => fav.id == item.id) = false := by
    rw [List.any_eq_false]
    intro fav hf
    simp [hnew fav hf]
  have hfirst : addFavorite type item now favs =
      (true, setFav favs type (lookupFav favs type ++ [mkFavEntry item now])) := by
    simp [addFavorite, hany]
  have hsecond : lookupFav (addFavorite type item now favs).2 type
      = lookupFav favs type ++ [mkFavEntry item now] := by
    rw [hfirst]
    exact lookupFav_setFav favs type _
  refine ⟨hfirst, hsecond, ?_⟩
  intro item2 now2 hid
  have hany2 : (lookupFav (addFavorite type item now favs).2 type).any
      (fun fav => fav.id == item2.id) = true := by
    rw [hsecond]
    simp [mkFavEntry, hid]
  generalize hX : (addFavorite type item now favs).2 = X at hany2 ⊢
  simp [addFavorite, hany2]

/-- Stored favorites object of the claim C10 witness: the default object
with the four empty arrays. -/
def favsC10 : Favorites :=
  [("artifacts", []), ("recordings", []), ("artists", []), ("narratives", [])]

/-- Witness for claim C10: adding the item with id 5 to the default empty
favorites appends one entry and returns true, and adding a second item
with the same id 5 afterwards returns false and changes nothing. -/
theorem addFavorite_idempotent_per_id_witness :
    addFavorite "artifacts" ⟨5, some "Mask", none⟩ 111 favsC10 =
        (true, setFav favsC10 "artifacts"
          (lookupFav favsC10 "artifacts" ++ [mkFavEntry ⟨5, some "Mask", none⟩ 111])) ∧
      lookupFav (addFavorite "artifacts" ⟨5, some "Mask", none⟩ 111 favsC10).2 "artifacts"
        = lookupFav favsC10 "artifacts" ++ [mkFavEntry ⟨5, some "Mask", none⟩ 111] ∧
      addFavorite "artifacts" ⟨5, none, some "OtherMask"⟩ 222
          (addFavorite "artifacts" ⟨5, some "Mask", none⟩ 111 favsC10).2
        = (false, (addFavorite "artifacts" ⟨5, some "Mask", none⟩ 111 favsC10).2) := by
  have h := addFavorite_idempotent_per_id "artifacts" ⟨5, some "Mask", none⟩ 111 favsC10
    (by decide)
  exact ⟨h.1, h.2.1, h.2.2 ⟨5, none, some "OtherMask"⟩ 222 rfl⟩

end Luba
